import Mathlib

/-!
Verification of the CSS selector builder in `src/05-objects-tasks.js`.

The builder is embedded shallowly: the JS class `CSSSelectorBuilder` becomes a
Lean structure, throwing methods become functions into `Except BuilderError _`,
and JS string truthiness (`if (this.elementValue)`) becomes a `≠ ""` test.
The source field `prefix` is named `pfx` here (`prefix` is reserved in Lean),
and the source's misspelled field `psuedoElementValue` keeps its spelling.
JS template-literal interpolation of an array (as in the `attrs` part of
`stringify`, which lacks a `.join('')`) joins the elements with commas, modelled
with `String.intercalate ","`.
-/

namespace CSS

/-- The two error messages thrown by the source
(`throwErrorMoreThanOne` and `throwErrorOrder`). -/
inductive BuilderError where
  | moreThanOne
  | outOfOrder
deriving DecidableEq, Repr

/-- The `cssSelectorOrder` table of category ranks. -/
def cssSelectorOrder.element : Int := 0

def cssSelectorOrder.id : Int := 1

def cssSelectorOrder.classes : Int := 2

def cssSelectorOrder.attrs : Int := 3

def cssSelectorOrder.pseudoClass : Int := 4

def cssSelectorOrder.pseudoElement : Int := 5

/-- The state of a `CSSSelectorBuilder` instance: the eight fields set by its
constructor. `pfx` models the source field `prefix`. -/
structure CSSSelectorBuilder where
  order : Int
  pfx : String
  elementValue : String
  idValue : String
  classes : List String
  attrs : List String
  pseudoClasses : List String
  psuedoElementValue : String
deriving DecidableEq, Repr

/-- `CSSSelectorBuilder.prototype.stringify`.  Note that the `attrs` part of the
source template literal has no `.join('')`: the array is interpolated directly,
which joins its elements with commas. -/
def stringify (b : CSSSelectorBuilder) : String :=
  b.pfx ++ b.elementValue
    ++ (if b.idValue ≠ "" then "#" else "") ++ b.idValue
    ++ String.join (b.classes.map (fun cssClass => "." ++ cssClass))
    ++ String.intercalate "," (b.attrs.map (fun attr => "[" ++ attr ++ "]"))
    ++ String.join (b.pseudoClasses.map (fun pseudoClass => ":" ++ pseudoClass))
    ++ (if b.psuedoElementValue ≠ "" then "::" else "") ++ b.psuedoElementValue

/-- `CSSSelectorBuilder.prototype.element`. -/
def element (b : CSSSelectorBuilder) (value : String) :
    Except BuilderError CSSSelectorBuilder :=
  if b.elementValue ≠ "" then .error .moreThanOne
  else if b.order > cssSelectorOrder.element then .error .outOfOrder
  else .ok { b with order := cssSelectorOrder.element, elementValue := value }

/-- `CSSSelectorBuilder.prototype.id`. -/
def id (b : CSSSelectorBuilder) (value : String) :
    Except BuilderError CSSSelectorBuilder :=
  if b.idValue ≠ "" then .error .moreThanOne
  else if b.order > cssSelectorOrder.id then .error .outOfOrder
  else .ok { b with order := cssSelectorOrder.id, idValue := value }

/-- `CSSSelectorBuilder.prototype.class`. -/
def «class» (b : CSSSelectorBuilder) (value : String) :
    Except BuilderError CSSSelectorBuilder :=
  if b.order > cssSelectorOrder.classes then .error .outOfOrder
  else .ok { b with order := cssSelectorOrder.classes, classes := b.classes ++ [value] }

/-- `CSSSelectorBuilder.prototype.attr`. -/
def attr (b : CSSSelectorBuilder) (value : String) :
    Except BuilderError CSSSelectorBuilder :=
  if b.order > cssSelectorOrder.attrs then .error .outOfOrder
  else .ok { b with order := cssSelectorOrder.attrs, attrs := b.attrs ++ [value] }

/-- `CSSSelectorBuilder.prototype.pseudoClass`. -/
def pseudoClass (b : CSSSelectorBuilder) (value : String) :
    Except BuilderError CSSSelectorBuilder :=
  if b.order > cssSelectorOrder.pseudoClass then .error .outOfOrder
  else .ok { b with order := cssSelectorOrder.pseudoClass,
                    pseudoClasses := b.pseudoClasses ++ [value] }

/-- `CSSSelectorBuilder.prototype.pseudoElement`.  There is no order check in
the source: only the duplicate check. -/
def pseudoElement (b : CSSSelectorBuilder) (value : String) :
    Except BuilderError CSSSelectorBuilder :=
  if b.psuedoElementValue ≠ "" then .error .moreThanOne
  else .ok { b with order := cssSelectorOrder.pseudoElement,
                    psuedoElementValue := value }

/-- `CSSSelectorBuilder.combine` (static). -/
def combine (selector1 : CSSSelectorBuilder) (combinator : String)
    (selector2 : CSSSelectorBuilder) : CSSSelectorBuilder :=
  { order := 1000
    pfx := stringify selector1 ++ " " ++ combinator ++ " " ++ stringify selector2
    elementValue := ""
    idValue := ""
    classes := []
    attrs := []
    pseudoClasses := []
    psuedoElementValue := "" }

/-- The exported zero-value facade `cssSelectorBuilder`. -/
def cssSelectorBuilder : CSSSelectorBuilder :=
  { order := -1
    pfx := ""
    elementValue := ""
    idValue := ""
    classes := []
    attrs := []
    pseudoClasses := []
    psuedoElementValue := "" }

/-! ### Characterizations of the fragment-adding methods -/

theorem element_ok_iff {b b2 : CSSSelectorBuilder} {v : String} :
    element b v = Except.ok b2 ↔
      b.elementValue = "" ∧ b.order ≤ cssSelectorOrder.element ∧
      b2 = { b with order := cssSelectorOrder.element, elementValue := v } := by
  unfold element
  split
  next h => simp [h]
  next h =>
    simp only [ne_eq, not_not] at h
    split
    next h2 =>
      constructor
      · intro hh
        exact absurd hh (by simp)
      · rintro ⟨-, h3, -⟩
        exact absurd h3 (not_le.mpr h2)
    next h2 =>
      simp only [Except.ok.injEq]
      constructor
      · intro hh
        exact ⟨h, not_lt.mp h2, hh.symm⟩
      · rintro ⟨-, -, hh⟩
        exact hh.symm

theorem id_ok_iff {b b2 : CSSSelectorBuilder} {v : String} :
    id b v = Except.ok b2 ↔
      b.idValue = "" ∧ b.order ≤ cssSelectorOrder.id ∧
      b2 = { b with order := cssSelectorOrder.id, idValue := v } := by
  unfold id
  split
  next h => simp [h]
  next h =>
    simp only [ne_eq, not_not] at h
    split
    next h2 =>
      constructor
      · intro hh
        exact absurd hh (by simp)
      · rintro ⟨-, h3, -⟩
        exact absurd h3 (not_le.mpr h2)
    next h2 =>
      simp only [Except.ok.injEq]
      constructor
      · intro hh
        exact ⟨h, not_lt.mp h2, hh.symm⟩
      · rintro ⟨-, -, hh⟩
        exact hh.symm

theorem class_ok_iff {b b2 : CSSSelectorBuilder} {v : String} :
    «class» b v = Except.ok b2 ↔
      b.order ≤ cssSelectorOrder.classes ∧
      b2 = { b with order := cssSelectorOrder.classes, classes := b.classes ++ [v] } := by
  unfold «class»
  split
  next h2 =>
    constructor
    · intro hh
      exact absurd hh (by simp)
    · rintro ⟨h3, -⟩
      exact absurd h3 (not_le.mpr h2)
  next h2 =>
    simp only [Except.ok.injEq]
    constructor
    · intro hh
      exact ⟨not_lt.mp h2, hh.symm⟩
    · rintro ⟨-, hh⟩
      exact hh.symm

theorem attr_ok_iff {b b2 : CSSSelectorBuilder} {v : String} :
    attr b v = Except.ok b2 ↔
      b.order ≤ cssSelectorOrder.attrs ∧
      b2 = { b with order := cssSelectorOrder.attrs, attrs := b.attrs ++ [v] } := by
  unfold attr
  split
  next h2 =>
    constructor
    · intro hh
      exact absurd hh (by simp)
    · rintro ⟨h3, -⟩
      exact absurd h3 (not_le.mpr h2)
  next h2 =>
    simp only [Except.ok.injEq]
    constructor
    · intro hh
      exact ⟨not_lt.mp h2, hh.symm⟩
    · rintro ⟨-, hh⟩
      exact hh.symm

theorem pseudoClass_ok_iff {b b2 : CSSSelectorBuilder} {v : String} :
    pseudoClass b v = Except.ok b2 ↔
      b.order ≤ cssSelectorOrder.pseudoClass ∧
      b2 = { b with order := cssSelectorOrder.pseudoClass,
                    pseudoClasses := b.pseudoClasses ++ [v] } := by
  unfold pseudoClass
  split
  next h2 =>
    constructor
    · intro hh
      exact absurd hh (by simp)
    · rintro ⟨h3, -⟩
      exact absurd h3 (not_le.mpr h2)
  next h2 =>
    simp only [Except.ok.injEq]
    constructor
    · intro hh
      exact ⟨not_lt.mp h2, hh.symm⟩
    · rintro ⟨-, hh⟩
      exact hh.symm

theorem pseudoElement_ok_iff {b b2 : CSSSelectorBuilder} {v : String} :
    pseudoElement b v = Except.ok b2 ↔
      b.psuedoElementValue = "" ∧
      b2 = { b with order := cssSelectorOrder.pseudoElement,
                    psuedoElementValue := v } := by
  unfold pseudoElement
  split
  next h => simp [h]
  next h =>
    simp only [ne_eq, not_not] at h
    simp only [Except.ok.injEq]
    constructor
    · intro hh
      exact ⟨h, hh.symm⟩
    · rintro ⟨-, hh⟩
      exact hh.symm

/-- `stringify` on a combined builder returns the stored raw prefix:
the combinator is surrounded by one space on each side. -/
theorem stringify_combine (l r : CSSSelectorBuilder) (c : String) :
    stringify (combine l c r) = stringify l ++ " " ++ c ++ " " ++ stringify r := by
  simp [stringify, combine, String.join, String.intercalate]

/-- `stringify` on a builder holding only a raw prefix and a non-empty
pseudo-element value. -/
theorem stringify_pfx_pe (o : Int) (p v : String) (hv : v ≠ "") :
    stringify ⟨o, p, "", "", [], [], [], v⟩ = p ++ "::" ++ v := by
  simp [stringify, hv, String.join, String.intercalate]

example : Except.map stringify (id cssSelectorBuilder "main") = Except.ok "#main" := by
  rfl

example :
    Except.map stringify
      (do
        let b1 ← element cssSelectorBuilder "a"
        let b2 ← attr b1 "href"
        pseudoClass b2 "focus")
      = Except.ok "a[href]:focus" := by
  rfl

/-! ### Claims -/

/-- C1: the spec requires two or more attributes to render as adjacent
bracketed groups with nothing between them, but the source's `stringify`
interpolates the mapped `attrs` array without `.join('')`, so JS joins the
bracketed groups with commas: `attr('a').attr('b')` stringifies to `"[a],[b]"`
instead of the specified `"[a][b]"`. -/
theorem C1_two_attrs_comma :
    Except.map stringify
      (do
        let b1 ← attr cssSelectorBuilder "a"
        attr b1 "b")
      = Except.ok "[a],[b]" ∧
    ("[a],[b]" : String) ≠ "[a][b]" :=
  ⟨rfl, by decide⟩

/-- C2: `combine` produces a builder stringifying to
`left.stringify() + " " + combinator + " " + right.stringify()`, with all other
fields empty; the worked example renders `"div#main + table#data"`, and the
descendant combinator `" "` yields the extra-space artifact (three spaces in a
row, a doubled space on each side of the original one) because the join already
puts a space on each side of the combinator. -/
theorem C2_combine_renders (l r : CSSSelectorBuilder) (c : String) :
    stringify (combine l c r) = stringify l ++ " " ++ c ++ " " ++ stringify r ∧
    (combine l c r).order = 1000 ∧
    (combine l c r).elementValue = "" ∧
    (combine l c r).idValue = "" ∧
    (combine l c r).classes = [] ∧
    (combine l c r).attrs = [] ∧
    (combine l c r).pseudoClasses = [] ∧
    (combine l c r).psuedoElementValue = "" ∧
    stringify (combine l " " r) = stringify l ++ "   " ++ stringify r ∧
    Except.map stringify
      (do
        let b1 ← element cssSelectorBuilder "div"
        let b2 ← id b1 "main"
        let b3 ← element cssSelectorBuilder "table"
        let b4 ← id b3 "data"
        pure (combine b2 "+" b4))
      = Except.ok "div#main + table#data" := by
  refine ⟨stringify_combine l r c, rfl, rfl, rfl, rfl, rfl, rfl, rfl, ?_, by rfl⟩
  rw [stringify_combine]
  rw [String.append_assoc (stringify l ++ " "), String.append_assoc (stringify l),
    String.append_assoc (stringify l)]
  have h3 : (" " ++ (" " ++ " ") : String) = "   " := rfl
  rw [h3, ← String.append_assoc]

/-- C3 fails as stated: `pseudoElement` has no ordering guard, so on a builder
produced by `combine` (orderRank 1000) it succeeds and the resulting builder's
orderRank drops to 5 — the rank decreases, and a call of rank 5 < 1000 is not
rejected. -/
theorem C3_counterexample :
    Except.map CSSSelectorBuilder.order
      (pseudoElement (combine cssSelectorBuilder ">" cssSelectorBuilder) "x")
      = Except.ok 5 ∧
    (combine cssSelectorBuilder ">" cssSelectorBuilder).order = 1000 ∧
    ¬ ((1000 : Int) ≤ 5) :=
  ⟨rfl, rfl, by decide⟩

/-- C3 amended: for the five order-guarded methods (`element`, `id`, `class`,
`attr`, `pseudoClass`) a successful call never decreases `order`, and a call
whose category rank is strictly below the receiver's `order` is rejected;
`pseudoElement`, however, carries no ordering guard and always sets the
resulting `order` to 5, so on a combined builder (order 1000) the rank
decreases. -/
theorem C3_order_monotone (b : CSSSelectorBuilder) (v : String) :
    (∀ b2, element b v = Except.ok b2 → b.order ≤ b2.order) ∧
    (∀ b2, id b v = Except.ok b2 → b.order ≤ b2.order) ∧
    (∀ b2, «class» b v = Except.ok b2 → b.order ≤ b2.order) ∧
    (∀ b2, attr b v = Except.ok b2 → b.order ≤ b2.order) ∧
    (∀ b2, pseudoClass b v = Except.ok b2 → b.order ≤ b2.order) ∧
    (cssSelectorOrder.element < b.order → ∀ b2, element b v ≠ Except.ok b2) ∧
    (cssSelectorOrder.id < b.order → ∀ b2, id b v ≠ Except.ok b2) ∧
    (cssSelectorOrder.classes < b.order → ∀ b2, «class» b v ≠ Except.ok b2) ∧
    (cssSelectorOrder.attrs < b.order → ∀ b2, attr b v ≠ Except.ok b2) ∧
    (cssSelectorOrder.pseudoClass < b.order → ∀ b2, pseudoClass b v ≠ Except.ok b2) ∧
    (∀ b2, pseudoElement b v = Except.ok b2 → b2.order = cssSelectorOrder.pseudoElement) := by
  refine ⟨?_, ?_, ?_, ?_, ?_, ?_, ?_, ?_, ?_, ?_, ?_⟩
  · intro b2 h
    obtain ⟨-, hle, rfl⟩ := element_ok_iff.mp h
    exact hle
  · intro b2 h
    obtain ⟨-, hle, rfl⟩ := id_ok_iff.mp h
    exact hle
  · intro b2 h
    obtain ⟨hle, rfl⟩ := class_ok_iff.mp h
    exact hle
  · intro b2 h
    obtain ⟨hle, rfl⟩ := attr_ok_iff.mp h
    exact hle
  · intro b2 h
    obtain ⟨hle, rfl⟩ := pseudoClass_ok_iff.mp h
    exact hle
  · intro hgt b2 h
    obtain ⟨-, hle, -⟩ := element_ok_iff.mp h
    exact absurd hle (not_le.mpr hgt)
  · intro hgt b2 h
    obtain ⟨-, hle, -⟩ := id_ok_iff.mp h
    exact absurd hle (not_le.mpr hgt)
  · intro hgt b2 h
    obtain ⟨hle, -⟩ := class_ok_iff.mp h
    exact absurd hle (not_le.mpr hgt)
  · intro hgt b2 h
    obtain ⟨hle, -⟩ := attr_ok_iff.mp h
    exact absurd hle (not_le.mpr hgt)
  · intro hgt b2 h
    obtain ⟨hle, -⟩ := pseudoClass_ok_iff.mp h
    exact absurd hle (not_le.mpr hgt)
  · intro b2 h
    obtain ⟨-, rfl⟩ := pseudoElement_ok_iff.mp h
    rfl

/-- C3 witness: instantiating the amended invariant on the zero-value builder
and a concrete successful `element` call. -/
theorem C3_order_monotone_witness :
    cssSelectorBuilder.order
      ≤ (⟨0, "", "x", "", [], [], [], ""⟩ : CSSSelectorBuilder).order :=
  (C3_order_monotone cssSelectorBuilder "x").1 ⟨0, "", "x", "", [], [], [], ""⟩ rfl

/-- C4 fails as stated: `element('a').id('b').element('c')` does fail, but with
the duplicate-fragment error, not the out-of-order error, because the source
checks `this.elementValue` before it checks `this.order`. -/
theorem C4_counterexample :
    (do
      let b1 ← element cssSelectorBuilder "a"
      let b2 ← id b1 "b"
      element b2 "c")
      = Except.error BuilderError.moreThanOne ∧
    BuilderError.moreThanOne ≠ BuilderError.outOfOrder :=
  ⟨rfl, by decide⟩

/-- C4 amended: for all non-empty names `a`, `b`, `c`, the chain
`element(a).id(b)` followed by `.element(c)` fails with the duplicate-fragment
error (`moreThanOne`), since the duplicate check precedes the order check and
`elementValue` is already set. -/
theorem C4_second_element_fails (a b c : String)
    (ha : a ≠ "") (hb : b ≠ "") (hc : c ≠ "") :
    (do
      let b1 ← element cssSelectorBuilder a
      let b2 ← id b1 b
      element b2 c)
      = Except.error BuilderError.moreThanOne := by
  have hchain :
      (do
        let b1 ← element cssSelectorBuilder a
        let b2 ← id b1 b
        element b2 c)
        = element ⟨1, "", a, b, [], [], [], ""⟩ c := rfl
  rw [hchain]
  simp [element, ha]

/-- C4 witness: the amended statement at the names of the spec's example. -/
theorem C4_second_element_fails_witness :
    (do
      let b1 ← element cssSelectorBuilder "a"
      let b2 ← id b1 "b"
      element b2 "c")
      = Except.error BuilderError.moreThanOne :=
  C4_second_element_fails "a" "b" "c" (by decide) (by decide) (by decide)

/-- C5 fails as stated: the duplicate guards test JS truthiness, so when the
first stored value is the empty string a second call to the same setter is not
rejected — `id('').id('y')` succeeds. -/
theorem C5_counterexample :
    id cssSelectorBuilder "" = Except.ok ⟨1, "", "", "", [], [], [], ""⟩ ∧
    id (⟨1, "", "", "", [], [], [], ""⟩ : CSSSelectorBuilder) "y"
      = Except.ok ⟨1, "", "", "y", [], [], [], ""⟩ :=
  ⟨rfl, rfl⟩

/-- C5 amended: whenever the stored `elementValue`, `idValue` or
`psuedoElementValue` is non-empty, a repeated call to the corresponding setter
on any builder is rejected with the duplicate-fragment error, regardless of
ordering. -/
theorem C5_duplicate_rejected (b : CSSSelectorBuilder) (v : String) :
    (b.elementValue ≠ "" → element b v = Except.error BuilderError.moreThanOne) ∧
    (b.idValue ≠ "" → id b v = Except.error BuilderError.moreThanOne) ∧
    (b.psuedoElementValue ≠ "" → pseudoElement b v = Except.error BuilderError.moreThanOne) := by
  refine ⟨fun h => ?_, fun h => ?_, fun h => ?_⟩
  · simp [element, h]
  · simp [id, h]
  · simp [pseudoElement, h]

/-- C5 witness: the three duplicate rejections on a concrete builder with every
single-occurrence field set. -/
theorem C5_duplicate_rejected_witness :
    element ⟨5, "", "e", "i", [], [], [], "p"⟩ "x"
      = Except.error BuilderError.moreThanOne ∧
    id ⟨5, "", "e", "i", [], [], [], "p"⟩ "x"
      = Except.error BuilderError.moreThanOne ∧
    pseudoElement ⟨5, "", "e", "i", [], [], [], "p"⟩ "x"
      = Except.error BuilderError.moreThanOne :=
  ⟨(C5_duplicate_rejected ⟨5, "", "e", "i", [], [], [], "p"⟩ "x").1 (by decide),
   (C5_duplicate_rejected ⟨5, "", "e", "i", [], [], [], "p"⟩ "x").2.1 (by decide),
   (C5_duplicate_rejected ⟨5, "", "e", "i", [], [], [], "p"⟩ "x").2.2 (by decide)⟩

/-- C6: a builder produced by `combine` has order 1000, above every category
rank, so every order-guarded method (`element`, `id`, `class`, `attr`,
`pseudoClass`) is rejected on it with the out-of-order error. -/
theorem C6_combined_terminal (l r : CSSSelectorBuilder) (c v : String) :
    element (combine l c r) v = Except.error BuilderError.outOfOrder ∧
    id (combine l c r) v = Except.error BuilderError.outOfOrder ∧
    «class» (combine l c r) v = Except.error BuilderError.outOfOrder ∧
    attr (combine l c r) v = Except.error BuilderError.outOfOrder ∧
    pseudoClass (combine l c r) v = Except.error BuilderError.outOfOrder :=
  ⟨rfl, rfl, rfl, rfl, rfl⟩

/-- C7: `class` additions are append-only and order-preserving, duplicates
included, and `class('a').class('b').class('a')` stringifies to `".a.b.a"`. -/
theorem C7_classes_append (b : CSSSelectorBuilder) (v : String) :
    (∀ b2, «class» b v = Except.ok b2 → b2.classes = b.classes ++ [v]) ∧
    Except.map stringify
      (do
        let b1 ← «class» cssSelectorBuilder "a"
        let b2 ← «class» b1 "b"
        «class» b2 "a")
      = Except.ok ".a.b.a" := by
  refine ⟨?_, rfl⟩
  intro b2 h
  obtain ⟨-, rfl⟩ := class_ok_iff.mp h
  rfl

/-- C7 witness: the append-only property at a concrete successful call. -/
theorem C7_classes_append_witness :
    (⟨2, "", "", "", ["a"], [], [], ""⟩ : CSSSelectorBuilder).classes
      = cssSelectorBuilder.classes ++ ["a"] :=
  (C7_classes_append cssSelectorBuilder "a").1 ⟨2, "", "", "", ["a"], [], [], ""⟩ rfl

/-- C8: `stringify` is a total pure function on every builder state — it
returns a string for every builder, two calls on the same builder agree, and
its result depends only on the builder's eight fields (a field-identical copy
stringifies identically). -/
theorem C8_stringify_total (b : CSSSelectorBuilder) :
    (∃ s : String, stringify b = s) ∧
    stringify b = stringify b ∧
    stringify ⟨b.order, b.pfx, b.elementValue, b.idValue, b.classes, b.attrs,
               b.pseudoClasses, b.psuedoElementValue⟩ = stringify b :=
  ⟨⟨stringify b, rfl⟩, rfl, rfl⟩

/-- C9 fails as stated for the empty name: `pseudoElement("")` on a combined
builder succeeds, but the rendered string is the bare prefix, not the prefix
followed by `"::"`, because the `"::"` marker is emitted only for a truthy
(non-empty) stored value. -/
theorem C9_counterexample :
    Except.map stringify
      (pseudoElement (combine cssSelectorBuilder ">" cssSelectorBuilder) "")
      = Except.ok " > " ∧
    stringify (combine cssSelectorBuilder ">" cssSelectorBuilder) ++ "::" ++ ""
      = " > ::" ∧
    (" > " : String) ≠ " > ::" :=
  ⟨rfl, rfl, by decide⟩

/-- C9 amended: `pseudoElement` has no ordering guard — on every builder whose
`psuedoElementValue` is unset it succeeds, including a builder produced by
`combine` whose order 1000 exceeds the terminal rank; for a non-empty name the
result of a combined builder stringifies to the combined prefix followed by
`"::" + name`. -/
theorem C9_pseudoElement_unguarded (b l r : CSSSelectorBuilder) (c v : String)
    (hb : b.psuedoElementValue = "") (hv : v ≠ "") :
    (∃ b2, pseudoElement b v = Except.ok b2) ∧
    Except.map stringify (pseudoElement (combine l c r) v)
      = Except.ok (stringify (combine l c r) ++ "::" ++ v) := by
  constructor
  · exact ⟨_, pseudoElement_ok_iff.mpr ⟨hb, rfl⟩⟩
  · have h1 : pseudoElement (combine l c r) v
        = Except.ok ⟨cssSelectorOrder.pseudoElement,
            stringify l ++ " " ++ c ++ " " ++ stringify r, "", "", [], [], [], v⟩ := rfl
    rw [h1]
    show Except.ok (stringify ⟨cssSelectorOrder.pseudoElement,
        stringify l ++ " " ++ c ++ " " ++ stringify r, "", "", [], [], [], v⟩) = _
    rw [stringify_pfx_pe _ _ _ hv, stringify_combine]

/-- C9 witness: a concrete unset builder and a concrete combined builder with a
non-empty pseudo-element name. -/
theorem C9_pseudoElement_unguarded_witness :
    (∃ b2, pseudoElement cssSelectorBuilder "x" = Except.ok b2) ∧
    Except.map stringify
      (pseudoElement (combine cssSelectorBuilder ">" cssSelectorBuilder) "x")
      = Except.ok
          (stringify (combine cssSelectorBuilder ">" cssSelectorBuilder) ++ "::" ++ "x") :=
  C9_pseudoElement_unguarded cssSelectorBuilder cssSelectorBuilder cssSelectorBuilder
    ">" "x" rfl (by decide)

/-- C10: the duplicate guards test truthiness, so if the first stored value for
`element`, `id` or `pseudoElement` is the empty string, a second call to the
same setter on the resulting builder does not raise the duplicate error. -/
theorem C10_empty_first_value_no_duplicate (b : CSSSelectorBuilder) (v : String) :
    (∀ b1, element b "" = Except.ok b1 →
      element b1 v ≠ Except.error BuilderError.moreThanOne) ∧
    (∀ b1, id b "" = Except.ok b1 →
      id b1 v ≠ Except.error BuilderError.moreThanOne) ∧
    (∀ b1, pseudoElement b "" = Except.ok b1 →
      pseudoElement b1 v ≠ Except.error BuilderError.moreThanOne) := by
  refine ⟨?_, ?_, ?_⟩
  · intro b1 h
    obtain ⟨-, -, rfl⟩ := element_ok_iff.mp h
    simp [element]
  · intro b1 h
    obtain ⟨-, -, rfl⟩ := id_ok_iff.mp h
    simp [id]
  · intro b1 h
    obtain ⟨-, rfl⟩ := pseudoElement_ok_iff.mp h
    simp [pseudoElement]

/-- C10 witness: concrete second calls after a first empty-string call on the
zero-value builder, none of which raises the duplicate error. -/
theorem C10_empty_first_value_no_duplicate_witness :
    element ⟨0, "", "", "", [], [], [], ""⟩ "y"
      ≠ Except.error BuilderError.moreThanOne ∧
    id ⟨1, "", "", "", [], [], [], ""⟩ "y"
      ≠ Except.error BuilderError.moreThanOne ∧
    pseudoElement ⟨5, "", "", "", [], [], [], ""⟩ "y"
      ≠ Except.error BuilderError.moreThanOne :=
  ⟨(C10_empty_first_value_no_duplicate cssSelectorBuilder "y").1 _ rfl,
   (C10_empty_first_value_no_duplicate cssSelectorBuilder "y").2.1 _ rfl,
   (C10_empty_first_value_no_duplicate cssSelectorBuilder "y").2.2 _ rfl⟩

end CSS
